import Mathlib

/-!
Verification development for the sinc/Lanczos image-resampling extension
(`src/content.js`).

The JavaScript content script is shallowly embedded as pure Lean functions:

* an image element (`<img>`) together with the pieces of computed style,
  dataset markers and inline style the script reads and writes is the
  structure `Elem`;
* numeric style values are rationals (`ℚ`); shader floating point is
  modelled over an arbitrary `LinearOrderedField` with the environment's
  `sin` and `pow` passed as function parameters;
* the GPU/browser capabilities consulted by `replaceWithSincCanvas`
  (context availability, extension support, framebuffer completeness,
  shader compile results) form the environment `GlEnv`;
* DOM insertions, GPU context requests and network fetches are recorded
  as an explicit list of `Act` values returned beside the new element
  state;
* the asynchronous refetch of cross-origin images
  (`fetchAndCacheImage`) is split into its synchronous prefix
  (`fetchAndCacheImageStart`, up to the `fetch` call) and the two
  continuations (`onFetchFail`, and the success step inside the trace
  semantics `stepF`), so that interleavings of several in-flight fetches
  can be analysed.
-/

section ContentScriptModel

/- Batteries marks the arithmetic of `ℚ` `@[irreducible]`; concrete
evaluation of the embedded functions (for witnesses and counterexamples)
needs these to unfold. -/
attribute [local semireducible] Rat.add Rat.mul Rat.inv Rat.sub

/-! ## Image elements -/

/-- The slice of an `<img>` element's state read or written by
`content.js`: source attributes, load state, the computed-style values
consulted by `getScaleInfo`, the inline style properties the script
writes, the `data-*` markers it uses as its state machine, the
`renderingMap` entry for this element, and whether a generated canvas
surface for it is currently in the document. -/
structure Elem where
  src : String
  currentSrc : String
  srcset : String
  /-- `img.crossOrigin`; the absent attribute is the empty string. -/
  crossOrigin : String
  complete : Bool
  naturalWidth : ℚ
  naturalHeight : ℚ
  /-- `img.width`, the fallback when `parseFloat(style.width)` is falsy. -/
  width : ℚ
  /-- `img.height`, the fallback when `parseFloat(style.height)` is falsy. -/
  height : ℚ
  /-- `parseFloat(getComputedStyle(img).width)`; `none` models `NaN`. -/
  styleWidth : Option ℚ
  /-- `parseFloat(getComputedStyle(img).height)`; `none` models `NaN`. -/
  styleHeight : Option ℚ
  /-- whether `box-sizing` computes to `border-box`. -/
  boxSizingBorderBox : Bool
  borderLeft : ℚ
  borderRight : ℚ
  borderTop : ℚ
  borderBottom : ℚ
  padLeft : ℚ
  padRight : ℚ
  padTop : ℚ
  padBottom : ℚ
  /-- inline `img.style.imageRendering`; unset is the empty string. -/
  imageRendering : String
  msInterpolationMode : String
  webkitTransform : String
  /-- inline `img.style.display`; unset is the empty string. -/
  display : String
  /-- `img.dataset.sincUpscaled`; unset is the empty string. -/
  sincUpscaled : String
  /-- truthiness of `img.dataset.sincUpscaled_fetched`. -/
  sincFetched : Bool
  /-- the `renderingMap` entry for this element (`WeakMap` lookup). -/
  saved : Option String
  /-- whether a generated canvas surface for this element is in the document. -/
  canvasInserted : Bool
  deriving DecidableEq, Repr

/-! ## String helpers (JS predicates used by the script) -/

/-- Does the JS regex `/\.svg(\?|#|$)/i` match at the head of this
character list: a literal `.`, then `svg` case-insensitively, then
`?`, `#` or the end of the string. -/
def svgMatchHere : List Char → Bool
  | '.' :: c1 :: c2 :: c3 :: rest =>
      c1.toLower == 's' && c2.toLower == 'v' && c3.toLower == 'g' &&
        (rest.isEmpty || rest.head? == some '?' || rest.head? == some '#')
  | _ => false

/-- Does `/\.svg(\?|#|$)/i` match anywhere in the character list. -/
def svgMatchSomewhere : List Char → Bool
  | [] => false
  | c :: rest => svgMatchHere (c :: rest) || svgMatchSomewhere rest

/-- `content.js` `isSVG` (lines 51-56): tests `/\.svg(\?|#|$)/i` against
`img.currentSrc || img.src || ''`. -/
def isSVG (e : Elem) : Bool :=
  svgMatchSomewhere (if e.currentSrc == "" then e.src else e.currentSrc).data

/-- Truthiness of `s.trim().length` in JS: some character of `s` is not
whitespace. -/
def trimNonempty (s : String) : Bool :=
  s.data.any fun c =>
    !(c == ' ' || c == '\t' || c == '\n' || c == '\r' || c == '\x0b' || c == '\x0c')

/-! ## Numeric helpers -/

/-- `content.js` `isInteger` (lines 58-60):
`Math.abs(Math.round(number) - number) < 1e-5`.  JS `Math.round`
rounds half towards `+∞`, which is Mathlib's `round`. -/
def isInteger (number : ℚ) : Bool :=
  decide (|((round number : ℤ) : ℚ) - number| < 1 / 100000)

/-- JS `a || b` for a possibly-NaN number `a` (`none` = NaN, and `0` is
falsy), as used in `parseFloat(style.width) || img.width`. -/
def jsOrNum (a : Option ℚ) (b : ℚ) : ℚ :=
  match a with
  | some x => if x = 0 then b else x
  | none => b

/-! ## GeometryAnalyzer: getScaleInfo -/

/-- Result record of `getScaleInfo` (the `style` field of the JS record is
the element itself here, so it is omitted). -/
structure ScaleInfo where
  scaleX : ℚ
  scaleY : ℚ
  needs : Bool
  width : ℚ
  height : ℚ
  deriving DecidableEq, Repr

/-- `content.js` `getScaleInfo` (lines 62-78): computed width/height with
`img.width`/`img.height` fallback, border and padding subtracted under
`border-box`, per-axis scale against the natural size, and the
eligibility flag `needs` with tolerance `1e-3`. -/
def getScaleInfo (e : Elem) : ScaleInfo :=
  let w0 := jsOrNum e.styleWidth e.width
  let h0 := jsOrNum e.styleHeight e.height
  let w :=
    if e.boxSizingBorderBox then
      w0 - ((e.borderLeft + e.borderRight) + (e.padLeft + e.padRight))
    else w0
  let h :=
    if e.boxSizingBorderBox then
      h0 - ((e.borderTop + e.borderBottom) + (e.padTop + e.padBottom))
    else h0
  let scaleX := w / e.naturalWidth
  let scaleY := h / e.naturalHeight
  { scaleX := scaleX
    scaleY := scaleY
    needs := decide (|scaleX - 1| > 1 / 1000) || decide (|scaleY - 1| > 1 / 1000)
    width := w
    height := h }

/-! ## RenderHintCache: saveRendering / restoreRendering -/

/-- `content.js` `saveRendering` (lines 39-43): record
`image.style.imageRendering || 'auto'` in the map unless an entry
already exists. -/
def saveRendering (e : Elem) : Elem :=
  if e.saved.isSome then e
  else { e with saved := some (if e.imageRendering == "" then "auto" else e.imageRendering) }

/-- `content.js` `restoreRendering` (lines 44-49): write the saved value
back to `image.style.imageRendering` and delete the entry, if present. -/
def restoreRendering (e : Elem) : Elem :=
  match e.saved with
  | some v => { e with imageRendering := v, saved := none }
  | none => e

/-! ## FallbackRenderer: oldNearestNeighborFallback -/

/-- The responsive-source-set rejection test of
`oldNearestNeighborFallback` (line 85):
`img.srcset && img.srcset.trim().length && img.src !== img.currentSrc`. -/
def srcsetMismatch (e : Elem) : Bool :=
  !(e.srcset == "") && trimNonempty e.srcset && !(e.src == e.currentSrc)

/-- The scale-rejection condition of `oldNearestNeighborFallback`
(line 89): `!isInteger(scaleX) || !isInteger(scaleY) ||
scaleX !== scaleY || scaleX <= 1`. -/
def fallbackReject (scaleX scaleY : ℚ) : Bool :=
  !isInteger scaleX || !isInteger scaleY || decide (scaleX ≠ scaleY) || decide (scaleX ≤ 1)

/-- `content.js` `oldNearestNeighborFallback` (lines 80-98), returning the
updated element and the JS boolean result. -/
def oldNearestNeighborFallback (e : Elem) (scaleX scaleY : ℚ) : Elem × Bool :=
  if isSVG e then (e, false)
  else
    let e1 := saveRendering e
    if srcsetMismatch e1 then (restoreRendering e1, false)
    else if fallbackReject scaleX scaleY then
      (restoreRendering e1, false)
    else
      ({ e1 with
          imageRendering := "pixelated"
          msInterpolationMode := "nearest-neighbor"
          webkitTransform := "translateZ(0)" }, true)

/-! ## SafetyResolver: isCORSsafe and the refetch cache -/

/-- Kernel-computable `String.startsWith` on the underlying character
lists (JS `String.prototype.startsWith`). -/
def charsStartWith : List Char → List Char → Bool
  | _, [] => true
  | [], _ :: _ => false
  | c :: cs, d :: ds => c == d && charsStartWith cs ds

/-- JS `url.startsWith(p)`. -/
def startsWith (s p : String) : Bool :=
  charsStartWith s.data p.data

/-- `content.js` `isCORSsafe` (lines 100-109): data/blob URIs and URLs
prefixed by `window.location.origin` are safe, as is an element with
`crossOrigin === "anonymous"`. -/
def isCORSsafe (origin : String) (e : Elem) : Bool :=
  startsWith e.src "data:" || startsWith e.src "blob:" || startsWith e.src origin
    || e.crossOrigin == "anonymous"

/-- The skip guard of `fetchAndCacheImage` (lines 136-143): data/blob
URI, same-origin prefix, or an already-cached URL (`storedImages[url]`
truthy; the cache is the list of stored URLs). -/
def fetchGuardSkip (origin : String) (cache : List String) (url : String) : Bool :=
  startsWith url "data:" || startsWith url "blob:" || startsWith url origin
    || cache.contains url

/-! ## Observable actions

The script's side effects beyond the fields of `Elem`: inserting or
removing the generated canvas, requesting a GPU context, creating GPU
objects (textures, buffers, programs), issuing an out-of-band `fetch`,
registering a `load` listener, and executing a draw call.  Each embedded
operation returns the list of actions it performed, in order. -/

inductive Act where
  | insertCanvas
  | removeCanvas
  | getContext
  | createGpuObjects
  | issueFetch (url : String)
  | addLoadListener
  | draw
  deriving DecidableEq, Repr

/-- The synchronous prefix of `fetchAndCacheImage` (lines 133-145): the
guard, then the `fetch` call is issued.  The asynchronous continuations
(cache store / failure marking) are `stepF` and `onFetchFail` below. -/
def fetchAndCacheImageStart (origin : String) (cache : List String) (e : Elem) :
    Elem × List Act :=
  if fetchGuardSkip origin cache e.src then (e, [])
  else (e, [Act.issueFetch e.src])

/-- The `catch` branch of `fetchAndCacheImage` (lines 159-162), run when
the fetch rejects or returns a non-ok status:
`img.dataset.sincUpscaled = "failed"`. -/
def onFetchFail (e : Elem) : Elem :=
  { e with sincUpscaled := "failed" }

/-! ## KernelProgram: replaceWithSincCanvas -/

/-- The GPU/browser capabilities `replaceWithSincCanvas` negotiates:
context availability for WebGL2/WebGL1, the `EXT_color_buffer_float`
extension, completeness of the `RGBA16F` framebuffer, and the compile
results of the two shader programs (the code checks `COMPILE_STATUS`
only; link errors are not observable to it). -/
structure GlEnv where
  webgl2 : Bool
  webgl1 : Bool
  extColorBufferFloat : Bool
  fbComplete : Bool
  mainCompileOk : Bool
  passCompileOk : Bool
  deriving DecidableEq, Repr

/-- Whether the float-framebuffer path is taken (lines 238-289):
WebGL2 with `EXT_color_buffer_float` and a complete framebuffer. -/
def useFloatFbo (env : GlEnv) : Bool :=
  env.webgl2 && env.extColorBufferFloat && env.fbComplete

/-- `content.js` `replaceWithSincCanvas` (lines 204-490) as a state
transition on the element, returning the performed actions.  The
branches, in source order: SVG early-out; not-yet-loaded early-out
(registers a `load` listener); CORS-unsafe early-out (starts
`fetchAndCacheImage` unless already attempted); canvas insertion and
`img.style.display = "none"`; no-context rollback plus fallback;
main-shader compile failure rollback plus fallback (lines 396-412);
passthrough compile failure, which only logs and returns
(lines 453-469); success. -/
def replaceWithSincCanvas (env : GlEnv) (origin : String) (cache : List String)
    (e : Elem) (scaleX scaleY width height : ℚ) : Elem × List Act :=
  if isSVG e then (e, [])
  else if !e.complete || decide (e.naturalWidth = 0) then (e, [Act.addLoadListener])
  else if !isCORSsafe origin e then
    if !e.sincFetched then fetchAndCacheImageStart origin cache e
    else (e, [])
  else
    let e2 := { e with display := "none", canvasInserted := true }
    if !env.webgl2 && !env.webgl1 then
      let e3 := { e2 with canvasInserted := false, display := "" }
      ((oldNearestNeighborFallback e3 scaleX scaleY).1,
        [Act.insertCanvas, Act.getContext, Act.removeCanvas])
    else if !env.mainCompileOk then
      let e3 := { e2 with canvasInserted := false, display := "" }
      ((oldNearestNeighborFallback e3 scaleX scaleY).1,
        [Act.insertCanvas, Act.getContext, Act.createGpuObjects, Act.removeCanvas])
    else if useFloatFbo env && !env.passCompileOk then
      (e2, [Act.insertCanvas, Act.getContext, Act.createGpuObjects, Act.draw])
    else
      (e2, [Act.insertCanvas, Act.getContext, Act.createGpuObjects, Act.draw, Act.draw])

/-! ## ImageTaskController: one element step of processImages -/

/-- The body of the `processImages` loop (lines 493-512) for one
element: the terminal-marker guard, the SVG marker, the
not-yet-loaded listener, the geometry gate writing the `"no"` marker,
and otherwise the `"true"` marker followed by `replaceWithSincCanvas`. -/
def processOne (env : GlEnv) (origin : String) (cache : List String) (e : Elem) :
    Elem × List Act :=
  if e.sincUpscaled == "true" || e.sincUpscaled == "failed" then (e, [])
  else if isSVG e then ({ e with sincUpscaled := "svg" }, [])
  else if !e.complete || decide (e.naturalWidth = 0) then (e, [Act.addLoadListener])
  else
    let si := getScaleInfo e
    if !si.needs then ({ e with sincUpscaled := "no" }, [])
    else
      replaceWithSincCanvas env origin cache { e with sincUpscaled := "true" }
        si.scaleX si.scaleY si.width si.height

/-! ## Refetch trace semantics

`fetchAndCacheImage` is asynchronous: the guard and the `fetch` call run
synchronously, while the cache store (`storedImages[url] = ...`, inside
`reader.onloadend`) or the failure marking run when the fetch settles.
A document-level state carries the URL cache, the elements, the
in-flight fetches and the log of issued fetch URLs; events interleave
invocations with fetch completions. -/

structure FetchState where
  cache : List String
  elems : List Elem
  pending : List (ℕ × String)
  issued : List String
  deriving DecidableEq, Repr

inductive FEv where
  /-- element `i` reaches the `fetchAndCacheImage(img)` call inside
  `replaceWithSincCanvas` (lines 212-219). -/
  | attempt (i : ℕ)
  /-- the fetch started for element `i` resolves; `reader.onloadend`
  stores the data URL in the cache keyed by the captured `url`, swaps
  `img.src`, and marks `sincUpscaled_fetched` (lines 148-158). -/
  | succeed (i : ℕ) (dataUrl : String)
  /-- the fetch started for element `i` rejects; the `catch` marks the
  element failed (lines 159-162). -/
  | fail (i : ℕ)
  deriving DecidableEq, Repr

/-- The URL captured by the pending fetch of element `i`, if any. -/
def findPending (p : List (ℕ × String)) (i : ℕ) : Option String :=
  (p.find? fun q => q.1 == i).map (·.2)

def removePending (p : List (ℕ × String)) (i : ℕ) : List (ℕ × String) :=
  p.eraseP fun q => q.1 == i

/-- One event of the refetch semantics. -/
def stepF (origin : String) (s : FetchState) (ev : FEv) : FetchState :=
  match ev with
  | .attempt i =>
    match s.elems[i]? with
    | none => s
    | some e =>
      if e.sincFetched then s
      else if fetchGuardSkip origin s.cache e.src then s
      else { s with issued := e.src :: s.issued, pending := (i, e.src) :: s.pending }
  | .succeed i dataUrl =>
    match findPending s.pending i, s.elems[i]? with
    | some u, some e =>
      { s with
          cache := u :: s.cache
          elems := s.elems.set i { e with src := dataUrl, sincFetched := true }
          pending := removePending s.pending i }
    | _, _ => s
  | .fail i =>
    match findPending s.pending i, s.elems[i]? with
    | some _, some e =>
      { s with
          elems := s.elems.set i (onFetchFail e)
          pending := removePending s.pending i }
    | _, _ => s

/-- Run a list of events. -/
def runF (origin : String) (s : FetchState) (evs : List FEv) : FetchState :=
  evs.foldl (stepF origin) s

/-! ## KernelProgram: the fragment shader

The GLSL fragment shader (lines 314-384; the WebGL1 and WebGL2 variants
have identical bodies) is embedded over an arbitrary linear ordered
field `α`; the environment's `sin` function, the shader's `π` literal
(`3.14159265359`) and the `pow` built-in are parameters, and a texture
is a function from normalized sample coordinates to an RGBA texel. -/

/-- An RGBA value (`vec4`). -/
structure Vec4 (α : Type) where
  r : α
  g : α
  b : α
  a : α
  deriving DecidableEq, Repr

/-- Componentwise `vec4` addition. -/
def vAdd {α : Type} [Add α] (u v : Vec4 α) : Vec4 α :=
  ⟨u.r + v.r, u.g + v.g, u.b + v.b, u.a + v.a⟩

/-- `texel * weight`: each component scaled. -/
def vScale {α : Type} [Mul α] (v : Vec4 α) (w : α) : Vec4 α :=
  ⟨v.r * w, v.g * w, v.b * w, v.a * w⟩

/-- `color /= total`: each component divided. -/
def vDiv {α : Type} [Div α] (v : Vec4 α) (t : α) : Vec4 α :=
  ⟨v.r / t, v.g / t, v.b / t, v.a / t⟩

/-- `texel.rgb = pow(texel.rgb, vec3(p))`: the gamma transform applied to
the color channels, alpha untouched. -/
def powRGB {α : Type} (gpow : α → α → α) (v : Vec4 α) (p : α) : Vec4 α :=
  ⟨gpow v.r p, gpow v.g p, gpow v.b p, v.a⟩

/-- Shader `sinc` (line 321):
`if (x == 0.0) return 1.0; float pix = PI * x; return sin(pix) / pix;`. -/
def sinc {α : Type} [LinearOrderedField α] (sin : α → α) (piC : α) (x : α) : α :=
  if x = 0 then 1 else sin (piC * x) / (piC * x)

/-- Shader `lanczos` (line 322):
`x = abs(x); if (x >= a) return 0.0; return sinc(x) * sinc(x / a);`. -/
def lanczos {α : Type} [LinearOrderedField α] (sin : α → α) (piC : α) (x a : α) : α :=
  let y := |x|
  if a ≤ y then 0 else sinc sin piC y * sinc sin piC (y / a)

/-- The loop bounds `-3 ≤ d ≤ 3` of the unrolled kernel. -/
def offsets : List ℤ := [-3, -2, -1, 0, 1, 2, 3]

/-- The 49 `(dx, dy)` pairs in the shader's traversal order (outer `dy`,
inner `dx`). -/
def offsetPairs : List (ℤ × ℤ) :=
  offsets.flatMap fun dy => offsets.map fun dx => (dx, dy)

/-- The per-texel conditional linearization (lines 335-337):
`if (uDown) texel.rgb = pow(texel.rgb, vec3(2.2));`. -/
def maybeLinearize {α : Type} [LinearOrderedField α] (gpow : α → α → α) (uDown : Bool)
    (v : Vec4 α) : Vec4 α :=
  if uDown then powRGB gpow v (11 / 5) else v

/-- The final conditional re-encoding (lines 344-346):
`if (uDown) color.rgb = pow(color.rgb, vec3(1.0/2.2));`. -/
def maybeDelinearize {α : Type} [LinearOrderedField α] (gpow : α → α → α) (uDown : Bool)
    (v : Vec4 α) : Vec4 α :=
  if uDown then powRGB gpow v (1 / (11 / 5)) else v

/-- The `main` of the resampling fragment shader (lines 323-348): source
coordinate, centred position, the 7×7 accumulation of
`texel * lanczos(dx,3)*lanczos(dy,3)` together with the weight total,
normalization, and the conditional gamma transforms.  `tex` is
`texture(uTex, ·)` over normalized coordinates. -/
def fragMain {α : Type} [LinearOrderedField α] (sin : α → α) (piC : α)
    (gpow : α → α → α) (tex : α → α → Vec4 α)
    (uSrcSize uDstSize vTex : α × α) (uDown : Bool) : Vec4 α :=
  let scale : α × α := (uSrcSize.1 / uDstSize.1, uSrcSize.2 / uDstSize.2)
  let srcCoord : α × α := (vTex.1 * uDstSize.1 * scale.1, vTex.2 * uDstSize.2 * scale.2)
  let center : α × α := (srcCoord.1 - 1 / 2, srcCoord.2 - 1 / 2)
  let acc :=
    offsetPairs.foldl
      (fun (p : Vec4 α × α) d =>
        let sampleCoord : α × α :=
          ((center.1 + (d.1 : α) + 1 / 2) / uSrcSize.1,
           (center.2 + (d.2 : α) + 1 / 2) / uSrcSize.2)
        let texel := maybeLinearize gpow uDown (tex sampleCoord.1 sampleCoord.2)
        let weight := lanczos sin piC (d.1 : α) 3 * lanczos sin piC (d.2 : α) 3
        (vAdd p.1 (vScale texel weight), p.2 + weight))
      (⟨0, 0, 0, 0⟩, 0)
  maybeDelinearize gpow uDown (vDiv acc.1 acc.2)

/-- `content.js` line 292: `const isDownsample = (scaleX < 1 && scaleY < 1);`
(the value wired to the shader's `uDown` uniform, lines 439-441). -/
def isDownsample (scaleX scaleY : ℚ) : Bool :=
  decide (scaleX < 1) && decide (scaleY < 1)

/-! ## Specification-side definitions (from the spec's words)

These transcribe §4.3 of the spec / claims C1 and C4, to be compared
with `fragMain`: `sinc(0) = 1`, `sinc(t) = sin(πt)/(πt)`,
`L(t) = sinc(t)·sinc(t/3)` for `|t| < 3` else `0`,
`w(dx,dy) = L(dx)·L(dy)`, the source-space coordinate
`srcCoord = destCoord * (srcSize/dstSize)` centred at `srcCoord - 0.5`,
and the weighted sum over offsets `−3..3` divided by the sum of the
weights used. -/

/-- Spec `sinc`: `sinc(0) = 1`, `sinc(t) = sin(πt)/(πt)`. -/
def sincSpec {α : Type} [LinearOrderedField α] (sin : α → α) (piC : α) (t : α) : α :=
  if t = 0 then 1 else sin (piC * t) / (piC * t)

/-- Spec `L`: `L(t) = sinc(t) · sinc(t/3)` for `|t| < 3`, else `0`. -/
def Lspec {α : Type} [LinearOrderedField α] (sin : α → α) (piC : α) (t : α) : α :=
  if |t| < 3 then sincSpec sin piC t * sincSpec sin piC (t / 3) else 0

/-- Spec 2D weight: `w(dx,dy) = L(dx) · L(dy)`. -/
def wSpec {α : Type} [LinearOrderedField α] (sin : α → α) (piC : α) (dx dy : α) : α :=
  Lspec sin piC dx * Lspec sin piC dy

/-- The weighted sum of the 7×7 neighborhood: texels are read at
`center + (dx, dy)` in source pixel space. -/
def specWeightedSum {α : Type} [LinearOrderedField α] (sin : α → α) (piC : α)
    (texAt : α × α → Vec4 α) (center : α × α) : Vec4 α :=
  offsetPairs.foldl
    (fun acc d =>
      vAdd acc (vScale (texAt (center.1 + (d.1 : α), center.2 + (d.2 : α)))
        (wSpec sin piC (d.1 : α) (d.2 : α))))
    ⟨0, 0, 0, 0⟩

/-- The sum of the weights used. -/
def specWeightTotal {α : Type} [LinearOrderedField α] (sin : α → α) (piC : α) : α :=
  offsetPairs.foldl (fun acc d => acc + wSpec sin piC (d.1 : α) (d.2 : α)) 0

/-- The claimed resampling formula: for a destination pixel `destCoord`,
`srcCoord = destCoord * (srcSize/dstSize)`, `center = srcCoord - 0.5`,
and the weighted neighborhood sum divided by the weight total. -/
def specResample {α : Type} [LinearOrderedField α] (sin : α → α) (piC : α)
    (texAt : α × α → Vec4 α) (destCoord srcSize dstSize : α × α) : Vec4 α :=
  let srcCoord : α × α :=
    (destCoord.1 * (srcSize.1 / dstSize.1), destCoord.2 * (srcSize.2 / dstSize.2))
  let center : α × α := (srcCoord.1 - 1 / 2, srcCoord.2 - 1 / 2)
  vDiv (specWeightedSum sin piC texAt center) (specWeightTotal sin piC)

/-- How the shader reads the source-pixel neighborhood: position `p` in
source pixel space is looked up at normalized `(p + 0.5) / srcSize`,
after the conditional linearization of the sampled texel. -/
def texelReader {α : Type} [LinearOrderedField α] (gpow : α → α → α) (uDown : Bool)
    (tex : α → α → Vec4 α) (srcSize : α × α) : α × α → Vec4 α :=
  fun p => maybeLinearize gpow uDown (tex ((p.1 + 1 / 2) / srcSize.1) ((p.2 + 1 / 2) / srcSize.2))

/-! ## Claim-level statements

Each `...Claim` definition below transcribes one claim of the spec in
the embedding's terms, to be proved or refuted. -/

/-- Spec-side content-box width (claim C5): the computed display width,
minus border and padding extents when `box-sizing` is `border-box`. -/
def contentWidthSpec (e : Elem) : ℚ :=
  if e.boxSizingBorderBox then
    jsOrNum e.styleWidth e.width - ((e.borderLeft + e.borderRight) + (e.padLeft + e.padRight))
  else jsOrNum e.styleWidth e.width

/-- Spec-side content-box height (claim C5). -/
def contentHeightSpec (e : Elem) : ℚ :=
  if e.boxSizingBorderBox then
    jsOrNum e.styleHeight e.height - ((e.borderTop + e.borderBottom) + (e.padTop + e.padBottom))
  else jsOrNum e.styleHeight e.height

/-- The element reaches the shader-compilation stage of
`replaceWithSincCanvas`: none of the early-outs fires and a GL context
is obtained. -/
def shaderStageReached (env : GlEnv) (origin : String) (e : Elem) : Prop :=
  isSVG e = false ∧ e.complete = true ∧ e.naturalWidth ≠ 0 ∧
    isCORSsafe origin e = true ∧ (env.webgl2 = true ∨ env.webgl1 = true)

/-- A shader compilation failure occurs during the call: either the
resampling program fails to compile, or it compiles, the float-FBO
path is active, and the passthrough program fails to compile. -/
def compileFailureOccurs (env : GlEnv) (origin : String) (e : Elem) : Prop :=
  shaderStageReached env origin e ∧
    (env.mainCompileOk = false ∨
      (env.mainCompileOk = true ∧ useFloatFbo env = true ∧ env.passCompileOk = false))

/-- Claim C2 as stated: whenever a shader compilation/link failure occurs
at any point during `replaceWithSincCanvas` (including the passthrough
pass), the function removes the inserted canvas and restores
`img.style.display` before returning. -/
def shaderRollbackClaim : Prop :=
  ∀ (env : GlEnv) (origin : String) (cache : List String) (e : Elem) (sx sy w h : ℚ),
    compileFailureOccurs env origin e →
      (replaceWithSincCanvas env origin cache e sx sy w h).1.canvasInserted = false ∧
      (replaceWithSincCanvas env origin cache e sx sy w h).1.display = e.display

/-- Claim C3 as stated: the fallback applies and returns `true` iff the
source is not SVG, there is no responsive source-set mismatch, and both
axes scale by the same integer factor strictly greater than `1` within
the eligibility-testing tolerance (`1e-3`). -/
def integerFallbackClaim : Prop :=
  ∀ (e : Elem) (sx sy : ℚ),
    (oldNearestNeighborFallback e sx sy).2 = true ↔
      (isSVG e = false ∧ srcsetMismatch e = false ∧
        ∃ n : ℤ, 1 < n ∧ |sx - (n : ℚ)| ≤ 1 / 1000 ∧ |sy - (n : ℚ)| ≤ 1 / 1000)

/-- The fallback's actual applicability condition (claim C3 amended):
`isInteger` tolerance `1e-5` on each axis, exact equality of the two
scale factors, raw value strictly greater than `1`. -/
def fallbackApplies (e : Elem) (sx sy : ℚ) : Bool :=
  !isSVG e && !srcsetMismatch e && isInteger sx && isInteger sy &&
    decide (sx = sy) && decide (1 < sx)

/-- A URL for which `fetchAndCacheImage` never fetches regardless of the
cache: data URI, blob URI, or same-origin prefix (claim C6). -/
def urlAlwaysSafe (origin url : String) : Bool :=
  startsWith url "data:" || startsWith url "blob:" || startsWith url origin

/-- Claim C6 as stated: across any event sequence from a fresh state, at
most one refetch is issued per distinct URL, and none for data/blob/
same-origin URLs. -/
def refetchOnceClaim : Prop :=
  ∀ (origin : String) (elems : List Elem) (evs : List FEv) (url : String),
    (runF origin ⟨[], elems, [], []⟩ evs).issued.count url ≤ 1 ∧
      (urlAlwaysSafe origin url = true →
        (runF origin ⟨[], elems, [], []⟩ evs).issued.count url = 0)

/-- The dataset markers denoting a terminal state of the per-element
state machine: `"no"`/`"svg"` (Skipped), `"true"` (Resampled or
FallbackApplied — also set before the GPU attempt), `"failed"`
(Failed). -/
def terminalMark (s : String) : Prop :=
  s = "no" ∨ s = "svg" ∨ s = "true" ∨ s = "failed"

/-- Claim C8 as stated: a second processing pass over an element in a
terminal state performs no further work: no state change, no actions. -/
def terminalNoReprocessClaim : Prop :=
  ∀ (env : GlEnv) (origin : String) (cache : List String) (e : Elem),
    terminalMark e.sincUpscaled → processOne env origin cache e = (e, [])

/-- Claim C9 as stated: a fresh, loaded image whose scale is within
tolerance of `1` on both axes reaches Skipped with zero DOM/GPU
mutations — nothing about the element is written and no actions occur. -/
def skipNoMutationClaim : Prop :=
  ∀ (env : GlEnv) (origin : String) (cache : List String) (e : Elem),
    e.sincUpscaled = "" → e.complete = true → e.naturalWidth ≠ 0 →
    |(getScaleInfo e).scaleX - 1| ≤ 1 / 1000 → |(getScaleInfo e).scaleY - 1| ≤ 1 / 1000 →
      terminalMark (processOne env origin cache e).1.sincUpscaled ∧
      (processOne env origin cache e).1 = e ∧
      (processOne env origin cache e).2 = []

/-- Claim C10 as stated: whenever the fallback returns `false`, the
element's inline `image-rendering` value and its saved-rendering entry
are exactly as they were before the call. -/
def fallbackNoResidueClaim : Prop :=
  ∀ (e : Elem) (sx sy : ℚ),
    (oldNearestNeighborFallback e sx sy).2 = false →
      (oldNearestNeighborFallback e sx sy).1.imageRendering = e.imageRendering ∧
      (oldNearestNeighborFallback e sx sy).1.saved = e.saved

/-! ## Concrete fixtures -/

/-- The document origin used in concrete instances. -/
def originBase : String := "https://site.example"

/-- A plain same-origin raster image: 100×100 natural size displayed at
200×200, fresh state, no inline styles. -/
def eBase : Elem where
  src := "https://site.example/pic.png"
  currentSrc := "https://site.example/pic.png"
  srcset := ""
  crossOrigin := ""
  complete := true
  naturalWidth := 100
  naturalHeight := 100
  width := 100
  height := 100
  styleWidth := some 200
  styleHeight := some 200
  boxSizingBorderBox := false
  borderLeft := 0
  borderRight := 0
  borderTop := 0
  borderBottom := 0
  padLeft := 0
  padRight := 0
  padTop := 0
  padBottom := 0
  imageRendering := ""
  msInterpolationMode := ""
  webkitTransform := ""
  display := ""
  sincUpscaled := ""
  sincFetched := false
  saved := none
  canvasInserted := false

/-- A cross-origin variant of `eBase` (no `crossOrigin` attribute). -/
def eCross : Elem :=
  { eBase with src := "https://cdn.example/pic.png", currentSrc := "https://cdn.example/pic.png" }

/-- A fully capable GPU environment. -/
def envFull : GlEnv where
  webgl2 := true
  webgl1 := true
  extColorBufferFloat := true
  fbComplete := true
  mainCompileOk := true
  passCompileOk := true

/-- An SVG variant of `eBase`. -/
def eSvg : Elem :=
  { eBase with src := "https://site.example/logo.svg",
               currentSrc := "https://site.example/logo.svg" }

/-- `eBase` displayed at its natural size (scale exactly 1). -/
def eNoScale : Elem :=
  { eBase with styleWidth := some 100, styleHeight := some 100 }

/-- `envFull` with a failing passthrough shader compile. -/
def envNoPass : GlEnv :=
  { envFull with passCompileOk := false }

/-- `envFull` with a failing main shader compile. -/
def envNoMain : GlEnv :=
  { envFull with mainCompileOk := false }

/-! ## Theorems -/

/-- Writing the value a field already has is the identity (used for the
idempotent marker writes). -/
theorem set_sincUpscaled_self (e : Elem) (s : String) (h : e.sincUpscaled = s) :
    { e with sincUpscaled := s } = e := by
  cases e
  cases h
  rfl

/-- `restoreRendering` after `saveRendering` is the identity when no
entry existed and the inline value is nonempty. -/
theorem restoreRendering_saveRendering (e : Elem)
    (h1 : e.saved = none) (h2 : e.imageRendering ≠ "") :
    restoreRendering (saveRendering e) = e := by
  obtain ⟨s1, s2, s3, s4, c1, n1, n2, w1, ht1, sw, sh, bb, b1, b2, b3, b4, p1, p2, p3, p4,
    ir, ms, wk, dp, su, sf, sv, ci⟩ := e
  have h1a : sv = none := h1
  subst h1a
  have h2a : (ir == "") = false := beq_eq_false_iff_ne.mpr h2
  simp [saveRendering, restoreRendering, h2a]

/-- The fallback never touches `display` or the canvas flag. -/
theorem oldNNF_display_canvas (e : Elem) (sx sy : ℚ) :
    (oldNearestNeighborFallback e sx sy).1.display = e.display ∧
    (oldNearestNeighborFallback e sx sy).1.canvasInserted = e.canvasInserted := by
  obtain ⟨s1, s2, s3, s4, c1, n1, n2, w1, ht1, sw, sh, bb, b1, b2, b3, b4, p1, p2, p3, p4,
    ir, ms, wk, dp, su, sf, sv, ci⟩ := e
  cases sv <;>
    simp only [oldNearestNeighborFallback, saveRendering, restoreRendering] <;>
    split_ifs <;> simp

/-- C5: for every loaded image with nonzero natural dimensions,
`getScaleInfo` returns `needs = true` iff at least one axis's scale
factor (content-box size divided by natural size, with border and
padding subtracted under `border-box`) deviates from `1` by more
than `1e-3`. -/
theorem c5_needs_resampling_iff (e : Elem)
    (hw : 0 < e.naturalWidth) (hh : 0 < e.naturalHeight) :
    (getScaleInfo e).needs = true ↔
      (1 / 1000 < |contentWidthSpec e / e.naturalWidth - 1| ∨
       1 / 1000 < |contentHeightSpec e / e.naturalHeight - 1|) := by
  simp only [getScaleInfo, contentWidthSpec, contentHeightSpec, gt_iff_lt,
    Bool.or_eq_true, decide_eq_true_eq]

/-- C5 witness: `eBase` (100×100 natural, displayed at 200×200) has
positive natural dimensions and needs resampling. -/
theorem c5_needs_resampling_iff_witness :
    0 < eBase.naturalWidth ∧ 0 < eBase.naturalHeight ∧ (getScaleInfo eBase).needs = true :=
  ⟨by decide, by decide,
    (c5_needs_resampling_iff eBase (by decide) (by decide)).mpr (Or.inl (by decide))⟩

/-- C10 fails as stated: an element with no inline `image-rendering`
value and no saved entry, rejected for a non-integer scale (`1.5`),
comes back with `image-rendering` rewritten to `"auto"` instead of the
original empty string (because `saveRendering` stores
`image.style.imageRendering || 'auto'`). -/
theorem c10_counterexample : ¬ fallbackNoResidueClaim := by
  intro h
  have hc := h eBase (3 / 2) (3 / 2) (by decide)
  exact absurd hc.1 (by decide)

/-- C10 amended: a rejecting `oldNearestNeighborFallback` call leaves
the inline `image-rendering` value and the saved-rendering entry
exactly as they were, provided no entry was already saved and the
inline value was nonempty (an originally empty inline value is
rewritten to `"auto"` by the save/restore round trip). -/
theorem c10_no_residue_amended (e : Elem) (sx sy : ℚ)
    (h1 : e.saved = none) (h2 : e.imageRendering ≠ "")
    (hres : (oldNearestNeighborFallback e sx sy).2 = false) :
    (oldNearestNeighborFallback e sx sy).1.imageRendering = e.imageRendering ∧
    (oldNearestNeighborFallback e sx sy).1.saved = e.saved := by
  have hrs := restoreRendering_saveRendering e h1 h2
  by_cases hsvg : isSVG e = true
  · simp [oldNearestNeighborFallback, hsvg]
  · by_cases hsm : srcsetMismatch (saveRendering e) = true
    · simp [oldNearestNeighborFallback, hsvg, hsm, hrs]
    · by_cases hbig : fallbackReject sx sy = true
      · simp [oldNearestNeighborFallback, hsvg, hsm, hbig, hrs]
      · exfalso
        simp [oldNearestNeighborFallback, hsvg, hsm, hbig] at hres

/-- C10 amended witness: a rejected call (scale `1.5`) on an element
with inline `image-rendering: crisp-edges` and no saved entry changes
neither. -/
theorem c10_no_residue_amended_witness :
    (oldNearestNeighborFallback { eBase with imageRendering := "crisp-edges" } (3 / 2)
        (3 / 2)).1.imageRendering = "crisp-edges" ∧
    (oldNearestNeighborFallback { eBase with imageRendering := "crisp-edges" } (3 / 2)
        (3 / 2)).1.saved = none :=
  c10_no_residue_amended { eBase with imageRendering := "crisp-edges" } (3 / 2) (3 / 2)
    (by decide) (by decide) (by decide)

/-- `saveRendering` only touches the saved entry, so the source-set
mismatch test is unaffected by it. -/
theorem srcsetMismatch_saveRendering (e : Elem) :
    srcsetMismatch (saveRendering e) = srcsetMismatch e := by
  obtain ⟨s1, s2, s3, s4, c1, n1, n2, w1, ht1, sw, sh, bb, b1, b2, b3, b4, p1, p2, p3, p4,
    ir, ms, wk, dp, su, sf, sv, ci⟩ := e
  cases sv <;> simp [saveRendering, srcsetMismatch]

/-- The amended applicability condition, re-expressed through the
source's own rejection test. -/
theorem fallbackApplies_eq (e : Elem) (sx sy : ℚ) :
    fallbackApplies e sx sy = (!isSVG e && !srcsetMismatch e && !fallbackReject sx sy) := by
  by_cases h4 : sx ≤ 1
  · have h4a : ¬(1 < sx) := not_lt.mpr h4
    simp [fallbackApplies, fallbackReject, h4, h4a]
  · have h4a : 1 < sx := not_le.mp h4
    simp [fallbackApplies, fallbackReject, h4, h4a, Bool.and_assoc]

/-- C3 fails as stated: at scale factors `2.0005` on both axes — the
same integer factor `2` within the claimed eligibility tolerance
`1e-3` — the fallback nevertheless returns `false`, because the code's
`isInteger` uses the tighter tolerance `1e-5`. -/
theorem c3_counterexample : ¬ integerFallbackClaim := by
  intro h
  have hc := (h eBase (2 + 1 / 2000) (2 + 1 / 2000)).mpr
    ⟨by decide, by decide, ⟨2, by decide, by decide, by decide⟩⟩
  exact absurd hc (by decide)

/-- C3 amended: `oldNearestNeighborFallback` applies the
nearest-neighbor hint and returns `true` iff the source is not SVG,
there is no responsive source-set mismatch, both scale factors pass the
`isInteger` test with tolerance `1e-5`, the two factors are exactly
equal, and the raw factor is strictly greater than `1`; in particular
`{2,2}` is applied while `{2,3}` and `{1.5,1.5}` are rejected. -/
theorem c3_integer_fallback_amended (e : Elem) (sx sy : ℚ) :
    ((oldNearestNeighborFallback e sx sy).2 = fallbackApplies e sx sy) ∧
    ((oldNearestNeighborFallback e sx sy).2 = true →
      (oldNearestNeighborFallback e sx sy).1.imageRendering = "pixelated") := by
  have hsm_eq := srcsetMismatch_saveRendering e
  have happ := fallbackApplies_eq e sx sy
  by_cases hsvg : isSVG e = true
  · simp [oldNearestNeighborFallback, happ, hsvg]
  · have hsvg2 : isSVG e = false := by simpa using hsvg
    by_cases hsm : srcsetMismatch e = true
    · simp [oldNearestNeighborFallback, happ, hsvg2, hsm, hsm_eq]
    · have hsm2 : srcsetMismatch e = false := by simpa using hsm
      by_cases hbig : fallbackReject sx sy = true
      · simp [oldNearestNeighborFallback, happ, hsvg2, hsm2, hsm_eq, hbig]
      · have hbig2 : fallbackReject sx sy = false := by simpa using hbig
        simp [oldNearestNeighborFallback, happ, hsvg2, hsm2, hsm_eq, hbig2]

/-- C3 amended witness: at exact `{2,2}` the hint is applied. -/
theorem c3_integer_fallback_amended_witness :
    (oldNearestNeighborFallback eBase 2 2).1.imageRendering = "pixelated" :=
  (c3_integer_fallback_amended eBase 2 2).2 (by decide)

/-- The `needs` field of `getScaleInfo`, in terms of the record's own
scale projections (definitional). -/
theorem getScaleInfo_needs_eq (e : Elem) :
    (getScaleInfo e).needs =
      (decide ((1 : ℚ) / 1000 < |(getScaleInfo e).scaleX - 1|) ||
       decide ((1 : ℚ) / 1000 < |(getScaleInfo e).scaleY - 1|)) := rfl

/-- C8 fails as stated: an element whose marker is the terminal `"no"`
(Skipped) is fully re-evaluated on the next pass; if its computed style
has meanwhile changed to a scaled size — with no intervening load
event — the pass does new work on it (inserts a surface, changes its
state). -/
theorem c8_counterexample : ¬ terminalNoReprocessClaim := by
  intro h
  have hc := h envFull originBase [] { eBase with sincUpscaled := "no" } (Or.inl rfl)
  exact absurd hc (by decide)

/-- C8 amended: elements marked `"true"` or `"failed"` are never
reprocessed; an element marked `"svg"` is unchanged as long as its
source still tests as SVG, and one marked `"no"` is unchanged as long
as its geometry still needs no resampling — but those two Skipped
markers are re-evaluated on every pass, so a geometry or source change
can trigger reprocessing without any load event. -/
theorem c8_terminal_amended (env : GlEnv) (origin : String) (cache : List String)
    (e : Elem) :
    ((e.sincUpscaled = "true" ∨ e.sincUpscaled = "failed") →
      processOne env origin cache e = (e, [])) ∧
    (e.sincUpscaled = "svg" → isSVG e = true →
      processOne env origin cache e = (e, [])) ∧
    (e.sincUpscaled = "no" → isSVG e = false → e.complete = true →
      e.naturalWidth ≠ 0 → (getScaleInfo e).needs = false →
      processOne env origin cache e = (e, [])) := by
  refine ⟨?_, ?_, ?_⟩
  · rintro (h | h) <;> simp [processOne, h]
  · intro h hsvg
    have hself := set_sincUpscaled_self e "svg" h
    simp [processOne, h, hsvg, hself]
  · intro h hsvg hcomp hnat hneeds
    have hself := set_sincUpscaled_self e "no" h
    have hc2 : (!e.complete || decide (e.naturalWidth = 0)) = false := by
      simp [hcomp, hnat]
    simp [processOne, h, hsvg, hc2, hneeds, hself]

/-- C8 amended witness: concrete already-processed (`"true"`),
still-SVG (`"svg"`) and still-unscaled (`"no"`) elements are all left
untouched by a second pass. -/
theorem c8_terminal_amended_witness :
    processOne envFull originBase [] { eBase with sincUpscaled := "true" } =
      ({ eBase with sincUpscaled := "true" }, []) ∧
    processOne envFull originBase [] { eSvg with sincUpscaled := "svg" } =
      ({ eSvg with sincUpscaled := "svg" }, []) ∧
    processOne envFull originBase [] { eNoScale with sincUpscaled := "no" } =
      ({ eNoScale with sincUpscaled := "no" }, []) :=
  ⟨(c8_terminal_amended envFull originBase [] _).1 (Or.inl rfl),
   (c8_terminal_amended envFull originBase [] _).2.1 rfl (by decide),
   (c8_terminal_amended envFull originBase [] _).2.2 rfl (by decide) rfl (by decide)
     (by decide)⟩

/-- C9 fails as stated: a fresh element at scale exactly 1 does reach
Skipped, but the pass writes the `data-sinc-upscaled="no"` marker onto
the element, so the element is not left entirely unwritten. -/
theorem c9_counterexample : ¬ skipNoMutationClaim := by
  intro h
  have hc := h envFull originBase [] eNoScale rfl rfl (by decide) (by decide) (by decide)
  exact absurd hc.2.1 (by decide)

/-- C9 amended: a fresh, loaded, non-SVG image within tolerance of
scale 1 on both axes reaches Skipped with the marker write as its only
mutation: the result is exactly the input element with
`sincUpscaled := "no"`, and no canvas, GPU, fetch or listener action
occurs. -/
theorem c9_skip_amended (env : GlEnv) (origin : String) (cache : List String) (e : Elem)
    (h0 : e.sincUpscaled ≠ "true") (h1 : e.sincUpscaled ≠ "failed")
    (hsvg : isSVG e = false) (hcomp : e.complete = true) (hnat : e.naturalWidth ≠ 0)
    (hx : |(getScaleInfo e).scaleX - 1| ≤ 1 / 1000)
    (hy : |(getScaleInfo e).scaleY - 1| ≤ 1 / 1000) :
    processOne env origin cache e = ({ e with sincUpscaled := "no" }, []) := by
  have h0b : (e.sincUpscaled == "true") = false := beq_eq_false_iff_ne.mpr h0
  have h1b : (e.sincUpscaled == "failed") = false := beq_eq_false_iff_ne.mpr h1
  have hneeds : (getScaleInfo e).needs = false := by
    rw [getScaleInfo_needs_eq, decide_eq_false (not_lt.mpr hx),
      decide_eq_false (not_lt.mpr hy)]
    rfl
  have hc2 : (!e.complete || decide (e.naturalWidth = 0)) = false := by
    simp [hcomp, hnat]
  simp [processOne, h0b, h1b, hsvg, hc2, hneeds]

/-- C9 amended witness: the concrete unscaled element gets exactly the
marker write. -/
theorem c9_skip_amended_witness :
    processOne envFull originBase [] eNoScale = ({ eNoScale with sincUpscaled := "no" }, []) :=
  c9_skip_amended envFull originBase [] eNoScale (by decide) (by decide) (by decide)
    (by decide) (by decide) (by decide) (by decide)

/-- The fallback never touches `display` (projection form). -/
theorem oldNNF_display (e : Elem) (sx sy : ℚ) :
    (oldNearestNeighborFallback e sx sy).1.display = e.display :=
  (oldNNF_display_canvas e sx sy).1

/-- The fallback never touches the canvas flag (projection form). -/
theorem oldNNF_canvas (e : Elem) (sx sy : ℚ) :
    (oldNearestNeighborFallback e sx sy).1.canvasInserted = e.canvasInserted :=
  (oldNNF_display_canvas e sx sy).2

/-- C2 fails as stated: with the float-framebuffer path active and a
failing passthrough compile, `replaceWithSincCanvas` returns from the
`catch` with the canvas still in the document and the image still
hidden (`display = "none"`), with no rollback (lines 466-469 only log
and return). -/
theorem c2_counterexample : ¬ shaderRollbackClaim := by
  intro h
  have hc := h envNoPass originBase [] eBase 3 3 300 300
    ⟨⟨by decide, by decide, by decide, by decide, Or.inl (by decide)⟩,
     Or.inr ⟨by decide, by decide, by decide⟩⟩
  exact absurd hc.1 (by decide)

/-- C2 amended: when compilation of the first (resampling) shader
program fails, `replaceWithSincCanvas` removes the inserted canvas and
clears the inline `display` (to the empty string, which equals the
original value exactly when the inline display was empty) before
returning; no such rollback happens for the second passthrough pass. -/
theorem c2_rollback_amended (env : GlEnv) (origin : String) (cache : List String)
    (e : Elem) (sx sy w h : ℚ)
    (hsvg : isSVG e = false) (hcomp : e.complete = true) (hnat : e.naturalWidth ≠ 0)
    (hcors : isCORSsafe origin e = true) (hgl : env.webgl2 = true ∨ env.webgl1 = true)
    (hmain : env.mainCompileOk = false) :
    (replaceWithSincCanvas env origin cache e sx sy w h).1.canvasInserted = false ∧
    (replaceWithSincCanvas env origin cache e sx sy w h).1.display = "" := by
  have hc2 : (!e.complete || decide (e.naturalWidth = 0)) = false := by
    simp [hcomp, hnat]
  have hgl2 : (!env.webgl2 && !env.webgl1) = false := by
    rcases hgl with hg | hg <;> simp [hg]
  simp [replaceWithSincCanvas, hsvg, hc2, hcors, hgl2, hmain, oldNNF_display, oldNNF_canvas]

/-- C2 amended witness: a failing main-shader compile on a plain
same-origin 2× image leaves no canvas and an empty inline display. -/
theorem c2_rollback_amended_witness :
    (replaceWithSincCanvas envNoMain originBase [] eBase 3 3 300 300).1.canvasInserted = false ∧
    (replaceWithSincCanvas envNoMain originBase [] eBase 3 3 300 300).1.display = "" :=
  c2_rollback_amended envNoMain originBase [] eBase 3 3 300 300 (by decide) (by decide)
    (by decide) (by decide) (Or.inl (by decide)) (by decide)

/-- C7: a cross-origin, credential-less image that needs resampling and
whose URL is not cached leads the pass to issue exactly one refetch and
nothing else; when that refetch fails, the element ends in the
`"failed"` terminal marker with every other field — display,
inline rendering hints, saved entry, canvas flag — exactly as before:
never hidden, no surface inserted, no hint applied. -/
theorem c7_refetch_failure (env : GlEnv) (origin : String) (cache : List String) (e : Elem)
    (h0 : e.sincUpscaled ≠ "true") (h1 : e.sincUpscaled ≠ "failed")
    (hsvg : isSVG e = false) (hcomp : e.complete = true) (hnat : e.naturalWidth ≠ 0)
    (hneeds : (getScaleInfo e).needs = true)
    (hcors : isCORSsafe origin e = false)
    (hfetched : e.sincFetched = false)
    (hcache : cache.contains e.src = false) :
    (processOne env origin cache e).2 = [Act.issueFetch e.src] ∧
    onFetchFail (processOne env origin cache e).1 = { e with sincUpscaled := "failed" } := by
  have h0b : (e.sincUpscaled == "true") = false := beq_eq_false_iff_ne.mpr h0
  have h1b : (e.sincUpscaled == "failed") = false := beq_eq_false_iff_ne.mpr h1
  have hc2 : (!e.complete || decide (e.naturalWidth = 0)) = false := by
    simp [hcomp, hnat]
  rw [isCORSsafe, Bool.or_eq_false_iff, Bool.or_eq_false_iff, Bool.or_eq_false_iff] at hcors
  obtain ⟨⟨⟨hd, hb⟩, ho⟩, ha⟩ := hcors
  have hmem : e.src ∉ cache := by simpa using hcache
  have hguard : fetchGuardSkip origin cache e.src = false := by
    simp [fetchGuardSkip, hd, hb, ho, hmem]
  simp only [isSVG, beq_iff_eq] at hsvg
  simp [processOne, replaceWithSincCanvas, fetchAndCacheImageStart, onFetchFail,
    isSVG, isCORSsafe, h0b, h1b, hsvg, hc2, hneeds, hd, hb, ho, ha, hfetched, hguard]

/-- C7 witness: a concrete cross-origin 2× image issues exactly one
fetch, and its failure leaves everything but the marker untouched. -/
theorem c7_refetch_failure_witness :
    (processOne envFull originBase [] eCross).2 = [Act.issueFetch eCross.src] ∧
    onFetchFail (processOne envFull originBase [] eCross).1 =
      { eCross with sincUpscaled := "failed" } :=
  c7_refetch_failure envFull originBase [] eCross (by decide) (by decide) (by decide)
    (by decide) (by decide) (by decide) (by decide) (by decide) (by decide)

/-- A step of the refetch semantics never removes a URL from the cache. -/
theorem stepF_cache_mono (origin : String) (s : FetchState) (ev : FEv) (url : String)
    (h : url ∈ s.cache) : url ∈ (stepF origin s ev).cache := by
  cases ev with
  | attempt i =>
    cases hg : s.elems[i]? with
    | none => simpa [stepF, hg] using h
    | some e =>
      simp only [stepF, hg]
      split_ifs <;> exact h
  | succeed i d =>
    cases hp : findPending s.pending i <;> cases hg : s.elems[i]? <;>
      simp [stepF, hp, hg, h]
  | fail i =>
    cases hp : findPending s.pending i <;> cases hg : s.elems[i]? <;>
      simp [stepF, hp, hg, h]

/-- A step of the refetch semantics issues no fetch for a URL that is
always-safe (data/blob/same-origin) or already cached. -/
theorem stepF_issued_count (origin : String) (s : FetchState) (ev : FEv) (url : String)
    (h : urlAlwaysSafe origin url = true ∨ url ∈ s.cache) :
    (stepF origin s ev).issued.count url = s.issued.count url := by
  cases ev with
  | succeed i d =>
    cases hp : findPending s.pending i <;> cases hg : s.elems[i]? <;>
      simp [stepF, hp, hg]
  | fail i =>
    cases hp : findPending s.pending i <;> cases hg : s.elems[i]? <;>
      simp [stepF, hp, hg]
  | attempt i =>
    cases hg : s.elems[i]? with
    | none => simp [stepF, hg]
    | some e =>
      by_cases hf : e.sincFetched = true
      · simp [stepF, hg, hf]
      · have hf2 : e.sincFetched = false := by simpa using hf
        by_cases hguard : fetchGuardSkip origin s.cache e.src = true
        · simp [stepF, hg, hf2, hguard]
        · have hguard2 : fetchGuardSkip origin s.cache e.src = false := by
            simpa using hguard
          rw [fetchGuardSkip, Bool.or_eq_false_iff, Bool.or_eq_false_iff,
            Bool.or_eq_false_iff] at hguard2
          obtain ⟨⟨⟨gd, gb⟩, go⟩, gc⟩ := hguard2
          have hne : url ≠ e.src := by
            intro heq
            rcases h with hs | hc
            · rw [urlAlwaysSafe, heq] at hs
              simp [gd, gb, go] at hs
            · rw [heq] at hc
              exact absurd hc (by simpa using gc)
          have hguard3 : fetchGuardSkip origin s.cache e.src = false := by
            simpa using hguard
          simp [stepF, hg, hf2, hguard3, List.count_cons, hne]

/-- C6 fails as stated: two distinct elements referencing the same
cross-origin URL, both invoked before the first fetch settles (the
cache is only written in the asynchronous `onloadend`), each issue a
refetch — two fetches for one URL. -/
theorem c6_counterexample : ¬ refetchOnceClaim := by
  intro h
  have hc := (h originBase [eCross, eCross] [FEv.attempt 0, FEv.attempt 1] eCross.src).1
  exact absurd hc (by decide)

/-- C6 amended: no refetch is ever issued for a data/blob/same-origin
URL, and no refetch is ever issued for a URL already in the cache — so
once a URL's refetch has completed and been cached, later encounters
reuse the cached representation; but several elements referencing the
same URL can each issue a refetch while the first is still in flight,
so the per-URL total is bounded by the number of encounters, not one. -/
theorem c6_refetch_amended (origin : String) (evs : List FEv) (s : FetchState)
    (url : String) :
    (urlAlwaysSafe origin url = true →
      (runF origin s evs).issued.count url = s.issued.count url) ∧
    (url ∈ s.cache →
      (runF origin s evs).issued.count url = s.issued.count url) := by
  constructor
  · intro hs
    induction evs generalizing s with
    | nil => rfl
    | cons ev tl ih =>
      calc (runF origin s (ev :: tl)).issued.count url
          = (runF origin (stepF origin s ev) tl).issued.count url := by simp [runF]
        _ = (stepF origin s ev).issued.count url := ih (stepF origin s ev)
        _ = s.issued.count url := stepF_issued_count origin s ev url (Or.inl hs)
  · intro hc
    induction evs generalizing s with
    | nil => rfl
    | cons ev tl ih =>
      calc (runF origin s (ev :: tl)).issued.count url
          = (runF origin (stepF origin s ev) tl).issued.count url := by simp [runF]
        _ = (stepF origin s ev).issued.count url :=
            ih (stepF origin s ev) (stepF_cache_mono origin s ev url hc)
        _ = s.issued.count url := stepF_issued_count origin s ev url (Or.inr hc)

/-- C6 amended witness: a data URI is never among the issued fetches of
a concrete run. -/
theorem c6_refetch_amended_witness :
    (runF originBase ⟨[], [eCross], [], []⟩ [FEv.attempt 0]).issued.count "data:xyz" = 0 := by
  have h := (c6_refetch_amended originBase [FEv.attempt 0] ⟨[], [eCross], [], []⟩
    "data:xyz").1 (by decide)
  simpa using h

/-- The source's `sinc` and the spec's `sinc` are the same function. -/
theorem sincSpec_eq_sinc {α : Type} [LinearOrderedField α] (sin : α → α) (piC : α)
    (t : α) : sincSpec sin piC t = sinc sin piC t := rfl

/-- `sinc` is even when the environment's `sin` is odd. -/
theorem sinc_neg {α : Type} [LinearOrderedField α] (sin : α → α) (piC : α)
    (hodd : ∀ x, sin (-x) = -sin x) (y : α) :
    sinc sin piC (-y) = sinc sin piC y := by
  by_cases hy : y = 0
  · subst hy
    simp
  · rw [sinc, sinc, if_neg (by simpa using hy), if_neg hy, mul_neg, hodd, neg_div_neg_eq]

/-- The source's `lanczos` at radius 3 is the spec's windowed kernel
`L`, given an odd `sin`. -/
theorem lanczos_eq_Lspec {α : Type} [LinearOrderedField α] (sin : α → α) (piC : α)
    (hodd : ∀ x, sin (-x) = -sin x) (t : α) :
    lanczos sin piC t 3 = Lspec sin piC t := by
  simp only [lanczos, Lspec, sincSpec_eq_sinc]
  by_cases h3 : |t| < 3
  · rw [if_neg (not_le.mpr h3), if_pos h3]
    rcases le_or_lt 0 t with hpos | hneg
    · rw [abs_of_nonneg hpos]
    · rw [abs_of_neg hneg, show -t / 3 = -(t / 3) by ring,
        sinc_neg sin piC hodd, sinc_neg sin piC hodd]
  · rw [if_pos (not_lt.mp h3), if_neg h3]

/-- The shader's single accumulation loop over `(color, total)` splits
into the spec's separate weighted sum and weight total, with the
`lanczos` weights rewritten to the spec kernel. -/
theorem fragFold_split {α : Type} [LinearOrderedField α] (sin : α → α) (piC : α)
    (gpow : α → α → α) (tex : α → α → Vec4 α) (uSrcSize : α × α) (uDown : Bool)
    (cX cY : α) (hodd : ∀ x, sin (-x) = -sin x) :
    ∀ (l : List (ℤ × ℤ)) (b : Vec4 α) (c : α),
      l.foldl
        (fun (p : Vec4 α × α) d =>
          (vAdd p.1 (vScale (maybeLinearize gpow uDown
              (tex ((cX + (d.1 : α) + 1 / 2) / uSrcSize.1)
                   ((cY + (d.2 : α) + 1 / 2) / uSrcSize.2)))
            (lanczos sin piC (d.1 : α) 3 * lanczos sin piC (d.2 : α) 3)),
           p.2 + lanczos sin piC (d.1 : α) 3 * lanczos sin piC (d.2 : α) 3))
        (b, c)
      = (l.foldl
           (fun acc d => vAdd acc (vScale (texelReader gpow uDown tex uSrcSize
               (cX + (d.1 : α), cY + (d.2 : α)))
             (wSpec sin piC (d.1 : α) (d.2 : α)))) b,
         l.foldl (fun acc d => acc + wSpec sin piC (d.1 : α) (d.2 : α)) c) := by
  intro l
  induction l with
  | nil => intro b c; rfl
  | cons x xs ih =>
    intro b c
    rw [List.foldl_cons, List.foldl_cons, List.foldl_cons, ih]
    simp only [lanczos_eq_Lspec sin piC hodd, wSpec, texelReader]

/-- The fragment shader computes exactly the claimed formula: gamma
decoding of each texel when `uDown`, the Lanczos-3 weighted 7×7 sum
around `destCoord * (srcSize/dstSize) - 0.5` normalized by the weight
total, and gamma re-encoding when `uDown`. -/
theorem fragMain_eq_spec {α : Type} [LinearOrderedField α] (sin : α → α) (piC : α)
    (gpow : α → α → α) (tex : α → α → Vec4 α) (uSrcSize uDstSize vTex : α × α)
    (uDown : Bool) (hodd : ∀ x, sin (-x) = -sin x) :
    fragMain sin piC gpow tex uSrcSize uDstSize vTex uDown =
      maybeDelinearize gpow uDown
        (specResample sin piC (texelReader gpow uDown tex uSrcSize)
          (vTex.1 * uDstSize.1, vTex.2 * uDstSize.2) uSrcSize uDstSize) := by
  simp only [fragMain, specResample, specWeightedSum, specWeightTotal]
  rw [fragFold_split sin piC gpow tex uSrcSize uDown
    (vTex.1 * uDstSize.1 * (uSrcSize.1 / uDstSize.1) - 1 / 2)
    (vTex.2 * uDstSize.2 * (uSrcSize.2 / uDstSize.2) - 1 / 2) hodd offsetPairs
    ⟨0, 0, 0, 0⟩ 0]

/-- C1: for every destination pixel, the resampling shader computes the
source-space coordinate `srcCoord = destCoord * (srcSize/dstSize)`
centred at `srcCoord - 0.5`, convolves the 7×7 neighborhood of integer
offsets in `[-3,3]²` with the jointly applied weight
`w(dx,dy) = L(dx)·L(dy)` (`L(t) = sinc(t)·sinc(t/3)` for `|t| < 3`,
else `0`; `sinc(0) = 1`, `sinc(t) = sin(πt)/(πt)` with the shader's π
constant), and divides the weighted sum by the sum of the weights used;
texels enter the sum through the sampling conversion `(p+0.5)/srcSize`
and the `uDown` gamma adjustments. -/
theorem c1_shader_formula {α : Type} [LinearOrderedField α] (sin : α → α) (piC : α)
    (gpow : α → α → α) (tex : α → α → Vec4 α) (uSrcSize uDstSize vTex : α × α)
    (uDown : Bool) (hodd : ∀ x, sin (-x) = -sin x) :
    fragMain sin piC gpow tex uSrcSize uDstSize vTex uDown =
      maybeDelinearize gpow uDown
        (specResample sin piC (texelReader gpow uDown tex uSrcSize)
          (vTex.1 * uDstSize.1, vTex.2 * uDstSize.2) uSrcSize uDstSize) :=
  fragMain_eq_spec sin piC gpow tex uSrcSize uDstSize vTex uDown hodd

/-- C1 witness: the formula at a concrete instantiation over `ℚ` with an
odd sine. -/
theorem c1_shader_formula_witness :
    fragMain (fun _ : ℚ => 0) 3 (fun b _ => b) (fun _ _ => ⟨1, 0, 0, 1⟩) (2, 2) (4, 4)
        (0, 0) false =
      maybeDelinearize (fun b _ => b) false
        (specResample (fun _ : ℚ => 0) 3
          (texelReader (fun b _ => b) false (fun _ _ => ⟨1, 0, 0, 1⟩) (2, 2))
          (0 * 4, 0 * 4) (2, 2) (4, 4)) :=
  c1_shader_formula (fun _ : ℚ => 0) 3 (fun b _ => b) (fun _ _ => ⟨1, 0, 0, 1⟩) (2, 2)
    (4, 4) (0, 0) false (fun x => by simp)

/-- C4: the linear-light workflow is wired to downsampling only —
`isDownsample` is true iff both axes are strictly below 1 — and the
shader converts each texel by power 2.2 before weighting and the
normalized result by power 1/2.2 afterwards exactly when `uDown` is
set, performing the convolution directly on display-encoded values
when it is not. -/
theorem c4_linear_workflow {α : Type} [LinearOrderedField α] (sin : α → α) (piC : α)
    (gpow : α → α → α) (tex : α → α → Vec4 α) (uSrcSize uDstSize vTex : α × α)
    (sx sy : ℚ) (hodd : ∀ x, sin (-x) = -sin x) :
    (isDownsample sx sy = true ↔ (sx < 1 ∧ sy < 1)) ∧
    fragMain sin piC gpow tex uSrcSize uDstSize vTex true =
      powRGB gpow
        (specResample sin piC
          (fun p => powRGB gpow
            (tex ((p.1 + 1 / 2) / uSrcSize.1) ((p.2 + 1 / 2) / uSrcSize.2)) (11 / 5))
          (vTex.1 * uDstSize.1, vTex.2 * uDstSize.2) uSrcSize uDstSize)
        (1 / (11 / 5)) ∧
    fragMain sin piC gpow tex uSrcSize uDstSize vTex false =
      specResample sin piC
        (fun p => tex ((p.1 + 1 / 2) / uSrcSize.1) ((p.2 + 1 / 2) / uSrcSize.2))
        (vTex.1 * uDstSize.1, vTex.2 * uDstSize.2) uSrcSize uDstSize := by
  refine ⟨?_, ?_, ?_⟩
  · simp [isDownsample]
  · have htex : texelReader gpow true tex uSrcSize =
        (fun p => powRGB gpow
          (tex ((p.1 + 1 / 2) / uSrcSize.1) ((p.2 + 1 / 2) / uSrcSize.2)) (11 / 5)) := by
      funext p
      simp [texelReader, maybeLinearize]
    rw [fragMain_eq_spec sin piC gpow tex uSrcSize uDstSize vTex true hodd, htex]
    simp [maybeDelinearize]
  · have htex : texelReader gpow false tex uSrcSize =
        (fun p => tex ((p.1 + 1 / 2) / uSrcSize.1) ((p.2 + 1 / 2) / uSrcSize.2)) := by
      funext p
      simp [texelReader, maybeLinearize]
    rw [fragMain_eq_spec sin piC gpow tex uSrcSize uDstSize vTex false hodd, htex]
    simp [maybeDelinearize]

/-- C4 witness: the `isDownsample` characterisation at the concrete
scale pair `(1/2, 1/2)`, obtained from the theorem at a concrete
instantiation over `ℚ` with an odd sine. -/
theorem c4_linear_workflow_witness : isDownsample (1 / 2) (1 / 2) = true :=
  ((c4_linear_workflow (fun _ : ℚ => 0) 3 (fun b _ => b) (fun _ _ => ⟨1, 0, 0, 1⟩)
      (4, 4) (2, 2) (0, 0) (1 / 2) (1 / 2) (fun x => by simp)).1).mpr
    (by constructor <;> norm_num)

end ContentScriptModel
